import Mathlib

set_option maxRecDepth 4000

deriving instance DecidableEq for Except

/-!
Verification of the decimal type family of `src/DataTypes/DataTypesDecimal.cpp`:
type descriptors `{width, precision, scale}`, naming, equality, numeric
promotion, text parsing with scale normalization and overflow detection, and
the name-based factory constructors and registration.

Helpers declared in headers that are not part of the translation unit
(`createDecimal`, `readDecimalText`, `DecimalUtils::max_precision`,
`DataTypeFactory`) are modelled from the specification; each such definition
says so in its doc comment.
-/

namespace DataTypesDecimal

/-- The four storage widths of the decimal family: `Decimal32`, `Decimal64`,
`Decimal128`, `Decimal256` (template parameter `T` of `DataTypeDecimal<T>`). -/
inductive Width
  | w32
  | w64
  | w128
  | w256
  deriving DecidableEq

/-- Bit width of the underlying signed integer storage. -/
def widthBits : Width → Nat
  | .w32 => 32
  | .w64 => 64
  | .w128 => 128
  | .w256 => 256

/-- Modelled from the spec: the per-width `DecimalUtils::max_precision`
constants (the header defining them is not under `src/`); the spec gives
9/18/38/76 digits for 32/64/128/256-bit storage. -/
def maxPrecision : Width → Nat
  | .w32 => 9
  | .w64 => 18
  | .w128 => 38
  | .w256 => 76

/-- A decimal type descriptor: storage width, precision and scale
(the state of a `DataTypeDecimal<T>` instance, with `T` as `width`). -/
structure Descriptor where
  width : Width
  precision : Nat
  scale : Nat
  deriving DecidableEq

/-- Error kinds, named as in the spec; they correspond to the source error
codes `NUMBER_OF_ARGUMENTS_DOESNT_MATCH` (argumentCountError),
`ILLEGAL_TYPE_OF_ARGUMENT` (argumentTypeError), `DECIMAL_OVERFLOW`
(overflowError), plus the scanner's malformed-input rejection and the
factory's width-selection rejection. -/
inductive Err
  | argumentCountError
  | argumentTypeError
  | overflowError
  | malformedInputError
  | widthSelectionError
  deriving DecidableEq

/-- An exception as thrown by the source: an error code plus a message. -/
structure DBException where
  code : Err
  message : String
  deriving DecidableEq

/-- `DataTypeDecimal<T>::doGetName`: formats `"Decimal({}, {})"` with
precision and scale. -/
def doGetName (d : Descriptor) : String :=
  "Decimal(" ++ toString d.precision ++ ", " ++ toString d.scale ++ ")"

/-- `DataTypeDecimal<T>::getSQLCompatibleName`: `"TEXT"` when the MySQL
`DECIMAL(M,D)` bounds are exceeded, else `"DECIMAL({}, {})"`. -/
def getSQLCompatibleName (d : Descriptor) : String :=
  if d.precision > 65 || d.scale > 30 then "TEXT"
  else "DECIMAL(" ++ toString d.precision ++ ", " ++ toString d.scale ++ ")"

/-- `DataTypeDecimal<T>::equals`: the `typeid_cast` to `DataTypeDecimal<T>`
succeeds exactly when the other type has the same width; then scales are
compared.  Precision is not consulted. -/
def equals (a b : Descriptor) : Bool :=
  if a.width = b.width then a.scale == b.scale else false

/-- `DataTypeDecimal<T>::promoteNumericType`: widths whose storage is at most
`sizeof(Decimal128)` promote to width 128 with `maxPrecision` of 128 and the
old scale; otherwise to width 256 with `maxPrecision` of 256 and the old
scale. -/
def promoteNumericType (d : Descriptor) : Descriptor :=
  if widthBits d.width ≤ 128 then ⟨.w128, maxPrecision .w128, d.scale⟩
  else ⟨.w256, maxPrecision .w256, d.scale⟩

/-- Result of scanning a decimal literal: total digit count, count of digits
after the point, the digits read as one integer, and the sign. -/
structure ScanResult where
  digits : Nat
  fracDigits : Nat
  mantissa : Nat
  neg : Bool
  deriving DecidableEq

/-- Reads a maximal run of digits, extending accumulator `v` (digit count in
`n`); returns the extended value, the count of digits read, and the rest. -/
def digitsAcc (v n : Nat) : List Char → Nat × Nat × List Char
  | [] => (v, n, [])
  | c :: cs =>
    if c.isDigit then digitsAcc (v * 10 + (c.toNat - 48)) (n + 1) cs
    else (v, n, c :: cs)

/-- Scans `[sign] digits [. digits]` to the end of the input; `none` on any
other shape (no digits at all, stray characters, a bare point). -/
def scanChars (l : List Char) : Option ScanResult :=
  let sl : Bool × List Char :=
    match l with
    | '-' :: r => (true, r)
    | '+' :: r => (false, r)
    | _ => (false, l)
  let p1 := digitsAcc 0 0 sl.2
  match p1.2.2 with
  | [] => if p1.2.1 = 0 then none else some ⟨p1.2.1, 0, p1.1, sl.1⟩
  | '.' :: r =>
    let p2 := digitsAcc p1.1 0 r
    if p2.2.2.isEmpty && !(p1.2.1 + p2.2.1 == 0) then
      some ⟨p1.2.1 + p2.2.1, p2.2.1, p2.1, sl.1⟩
    else none
  | _ => none

/-- Modelled from the spec: `readDecimalText` (header `IO/readDecimalText.h`,
not under `src/`).  Scans the text as a decimal literal honoring `precision`
as the maximum digit budget and requiring the literal's fractional digit
count to be at most `scale`; returns the raw scanned integer together with
the unread scale (`scale` minus the fractional digit count), i.e. how many
factor-of-ten scale-up steps remain to reach the declared scale.  A literal
exceeding a budget is an overflow-class rejection; syntactically invalid
text is a malformed-input rejection. -/
def readDecimalText (str : String) (precision scale : Nat) :
    Except DBException (Int × Nat) :=
  match scanChars str.toList with
  | none => .error ⟨.malformedInputError, "Cannot read decimal value"⟩
  | some r =>
    if precision < r.digits then
      .error ⟨.overflowError, "Too many digits"⟩
    else if scale < r.fracDigits then
      .error ⟨.overflowError, "Too many digits after the decimal point"⟩
    else
      .ok (if r.neg then -(r.mantissa : Int) else (r.mantissa : Int),
           scale - r.fracDigits)

/-- Whether `y` is representable by the signed fixed-width integer backing
width `w` (the range `common::mulOverflow` checks against). -/
def fitsWidth (w : Width) (y : Int) : Bool :=
  decide (-(2 ^ (widthBits w - 1) : Int) ≤ y) &&
  decide (y ≤ (2 ^ (widthBits w - 1) : Int) - 1)

/-- `DataTypeDecimal<T>::parseFromString`: scan the text with the
descriptor's precision and scale obtaining a raw integer and an unread
scale, multiply by `10 ^ unread_scale` with an overflow-checked
multiplication over the descriptor's width, and throw `DECIMAL_OVERFLOW`
("Decimal math overflow") when the product does not fit. -/
def parseFromString (d : Descriptor) (str : String) : Except DBException Int :=
  match readDecimalText str d.precision d.scale with
  | .error e => .error e
  | .ok (x, unreadScale) =>
    let y := x * (10 : Int) ^ unreadScale
    if fitsWidth d.width y then .ok y
    else .error ⟨.overflowError, "Decimal math overflow"⟩

/-- A literal value as carried by `ASTLiteral::value` (a `Field`); only the
kinds the constructors inspect are distinguished. -/
inductive Field
  | uint (n : Nat)
  | int (i : Int)
  | str (s : String)
  | float
  | null
  deriving DecidableEq

/-- `Field::Types::UInt64` check used for the generic precision slot. -/
def isUInt64Field : Field → Bool
  | .uint _ => true
  | _ => false

/-- `isInt64OrUInt64FieldType` from `Core/Field.h`. -/
def isInt64OrUInt64FieldType : Field → Bool
  | .uint _ => true
  | .int _ => true
  | _ => false

/-- `Field::get<UInt64>`: an `Int64` payload is reinterpreted modulo
`2 ^ 64`. -/
def getUInt : Field → Nat
  | .uint n => n
  | .int i => (i % (2 ^ 64 : Int)).toNat
  | _ => 0

/-- An argument AST node: an `ASTLiteral`, or any other node (for which
`as<ASTLiteral>()` yields null). -/
inductive ASTNode
  | literal (value : Field)
  | other
  deriving DecidableEq

/-- `node->as<ASTLiteral>()`. -/
def asLiteral : ASTNode → Option Field
  | .literal f => some f
  | .other => none

/-- The smallest supported width whose `maxPrecision` accommodates
`precision` (76 falls through to width 256). -/
def smallestDecimalWidth (precision : Nat) : Width :=
  if precision ≤ maxPrecision .w32 then .w32
  else if precision ≤ maxPrecision .w64 then .w64
  else if precision ≤ maxPrecision .w128 then .w128
  else .w256

/-- Modelled from the spec: `createDecimal<DataTypeDecimal>` (header
`DataTypes/DataTypesDecimal.h`, not under `src/`).  Rejects a precision
outside `1 ..= maxPrecision 256` (width-selection failure; the descriptor
invariant demands `1 <= precision`), rejects `scale > precision`, and
otherwise builds the descriptor at the smallest width whose capacity
accommodates the precision. -/
def createDecimal (precision scale : Nat) : Except DBException Descriptor :=
  if precision < 1 || precision > maxPrecision .w256 then
    .error ⟨.widthSelectionError, "Wrong precision: it must be between 1 and 76"⟩
  else if scale > precision then
    .error ⟨.argumentTypeError, "Scale larger than precision is not supported"⟩
  else
    .ok ⟨smallestDecimalWidth precision, precision, scale⟩

/-- Message of the generic constructor's argument-count rejection. -/
def decimalCountMsg : String :=
  "Decimal data type family must have precision and optional scale arguments"

/-- Message of the generic constructor's precision-slot rejection. -/
def precisionInvalidMsg : String := "Decimal argument precision is invalid"

/-- Message of the generic constructor's scale-slot rejection. -/
def scaleInvalidMsg : String := "Decimal argument scale is invalid"

/-- The generic `Decimal` constructor (`create` in the source): defaults
`precision = 10`, `scale = 0`; with an argument list present it must hold
one or two children, the first a `UInt64` literal (precision), the optional
second an `Int64`/`UInt64` literal (scale); then delegates to
`createDecimal`. -/
def create (arguments : Option (List ASTNode)) : Except DBException Descriptor :=
  match arguments with
  | none => createDecimal 10 0
  | some children =>
    if children.isEmpty || children.length > 2 then
      .error ⟨.argumentCountError, decimalCountMsg⟩
    else
      match children with
      | [a] =>
        match asLiteral a with
        | some (.uint p) => createDecimal p 0
        | _ => .error ⟨.argumentTypeError, precisionInvalidMsg⟩
      | [a, b] =>
        match asLiteral a with
        | some (.uint p) =>
          match asLiteral b with
          | some f =>
            if isInt64OrUInt64FieldType f then createDecimal p (getUInt f)
            else .error ⟨.argumentTypeError, scaleInvalidMsg⟩
          | none => .error ⟨.argumentTypeError, scaleInvalidMsg⟩
        | _ => .error ⟨.argumentTypeError, precisionInvalidMsg⟩
      | _ => .error ⟨.argumentCountError, decimalCountMsg⟩

/-- Message of the exact-width constructors' argument-count rejection. -/
def exactCountMsg : String :=
  "Decimal32 | Decimal64 | Decimal128 | Decimal256 data type family must have exactly one arguments: scale"

/-- Message of the exact-width constructors' argument-type rejection. -/
def exactTypeMsg : String :=
  "Decimal32 | Decimal64 | Decimal128 | Decimal256 data type family must have a one number as its argument"

/-- The exact-width constructor (`createExact<T>` in the source, with `w`
standing for `T`): exactly one argument, an `Int64`/`UInt64` literal giving
the scale; precision is fixed to `maxPrecision w`; then delegates to
`createDecimal`. -/
def createExact (w : Width) (arguments : Option (List ASTNode)) :
    Except DBException Descriptor :=
  match arguments with
  | none => .error ⟨.argumentCountError, exactCountMsg⟩
  | some children =>
    if children.length ≠ 1 then
      .error ⟨.argumentCountError, exactCountMsg⟩
    else
      match children with
      | [a] =>
        match asLiteral a with
        | some f =>
          if isInt64OrUInt64FieldType f then
            createDecimal (maxPrecision w) (getUInt f)
          else .error ⟨.argumentTypeError, exactTypeMsg⟩
        | none => .error ⟨.argumentTypeError, exactTypeMsg⟩
      | _ => .error ⟨.argumentCountError, exactCountMsg⟩

/-- The constructors bound during registration, as tags. -/
inductive Ctor
  | exact32
  | exact64
  | exact128
  | exact256
  | generic
  deriving DecidableEq

/-- The constructor function a registration tag stands for. -/
def applyCtor : Ctor → Option (List ASTNode) → Except DBException Descriptor
  | .exact32 => createExact .w32
  | .exact64 => createExact .w64
  | .exact128 => createExact .w128
  | .exact256 => createExact .w256
  | .generic => create

/-- ASCII lower-casing of one character, the normalization underlying
case-insensitive name matching. -/
def toLowerChar (c : Char) : Char :=
  if 'A' ≤ c ∧ c ≤ 'Z' then Char.ofNat (c.toNat + 32) else c

/-- Lower-cases a type name for case-insensitive registration and lookup. -/
def normalizeName (s : String) : String := ⟨s.data.map toLowerChar⟩

/-- Modelled from the spec: the `DataTypeFactory` registry state (the factory
lives outside `src/`): a table of name-to-constructor entries and a table of
alias-to-target entries; case-insensitivity is achieved by normalizing keys
to lower case at registration and lookup time. -/
structure DataTypeFactory where
  types : List (String × Ctor)
  aliases : List (String × String)
  deriving DecidableEq

/-- Modelled from the spec: `DataTypeFactory::registerDataType` with
case-insensitive matching stores the entry under the lower-cased name. -/
def registerDataType (f : DataTypeFactory) (name : String) (c : Ctor) :
    DataTypeFactory :=
  { f with types := (normalizeName name, c) :: f.types }

/-- Modelled from the spec: `DataTypeFactory::registerAlias` with
case-insensitive matching stores the lower-cased alias pointing at the
lower-cased target name. -/
def registerAlias (f : DataTypeFactory) (aliasName target : String) :
    DataTypeFactory :=
  { f with aliases := (normalizeName aliasName, normalizeName target) :: f.aliases }

/-- Modelled from the spec: factory lookup normalizes the requested name and
resolves it in the entry table, falling back to the alias table and
resolving the alias target through the entry table. -/
def lookupCtor (f : DataTypeFactory) (name : String) : Option Ctor :=
  match f.types.lookup (normalizeName name) with
  | some c => some c
  | none =>
    match f.aliases.lookup (normalizeName name) with
    | some target => f.types.lookup target
    | none => none

/-- `registerDataTypeDecimal`: binds the four exact-width names to their
width-specific constructors, `Decimal` to the generic constructor, and the
aliases `DEC`, `NUMERIC`, `FIXED` to `Decimal`, all case-insensitively. -/
def registerDataTypeDecimal (f : DataTypeFactory) : DataTypeFactory :=
  let f := registerDataType f "Decimal32" .exact32
  let f := registerDataType f "Decimal64" .exact64
  let f := registerDataType f "Decimal128" .exact128
  let f := registerDataType f "Decimal256" .exact256
  let f := registerDataType f "Decimal" .generic
  let f := registerAlias f "DEC" "Decimal"
  let f := registerAlias f "NUMERIC" "Decimal"
  let f := registerAlias f "FIXED" "Decimal"
  f

/-- The factory after decimal registration, starting from an empty table. -/
def decimalFactory : DataTypeFactory := registerDataTypeDecimal ⟨[], []⟩

/-- C6: `equals` returns true iff the two descriptors have the same width and
the same scale, precision excluded; hence it is reflexive and symmetric, and
a width-64/scale-2 descriptor of precision 10 equals one of precision 18. -/
theorem equals_same_width_and_scale :
    (∀ a b : Descriptor, equals a b = true ↔ a.width = b.width ∧ a.scale = b.scale) ∧
    (∀ a : Descriptor, equals a a = true) ∧
    (∀ a b : Descriptor, equals a b = equals b a) ∧
    equals ⟨.w64, 10, 2⟩ ⟨.w64, 18, 2⟩ = true := by
  have hiff : ∀ a b : Descriptor,
      equals a b = true ↔ a.width = b.width ∧ a.scale = b.scale := by
    intro a b
    unfold equals
    split
    · simp [*]
    · simp [*]
  refine ⟨hiff, ?_, ?_, by decide⟩
  · intro a
    exact (hiff a a).2 ⟨rfl, rfl⟩
  · intro a b
    by_cases h : equals a b = true
    · obtain ⟨hw, hs⟩ := (hiff a b).1 h
      rw [h, ((hiff b a).2 ⟨hw.symm, hs.symm⟩)]
    · have h2 : ¬ equals b a = true := by
        intro hba
        obtain ⟨hw, hs⟩ := (hiff b a).1 hba
        exact h ((hiff a b).2 ⟨hw.symm, hs.symm⟩)
      rw [Bool.not_eq_true] at h h2
      rw [h, h2]

/-- C7: promotion sends any width at most 128 to width 128 with
`maxPrecision 128` and the same scale, and width 256 to width 256 with
`maxPrecision 256` and the same scale; the result is never width 32 or 64
and the width never decreases. -/
theorem promoteNumericType_spec :
    ∀ d : Descriptor,
      (widthBits d.width ≤ 128 →
        promoteNumericType d = ⟨.w128, maxPrecision .w128, d.scale⟩) ∧
      (d.width = .w256 →
        promoteNumericType d = ⟨.w256, maxPrecision .w256, d.scale⟩) ∧
      (promoteNumericType d).scale = d.scale ∧
      (promoteNumericType d).width ≠ .w32 ∧
      (promoteNumericType d).width ≠ .w64 ∧
      widthBits d.width ≤ widthBits (promoteNumericType d).width := by
  intro d
  obtain ⟨w, p, s⟩ := d
  cases w <;> simp [promoteNumericType, widthBits, maxPrecision]

/-- Witness for C7 at concrete descriptors of width 32 and width 256. -/
theorem promoteNumericType_witness :
    promoteNumericType ⟨.w32, 9, 2⟩ = ⟨.w128, 38, 2⟩ ∧
    promoteNumericType ⟨.w256, 76, 3⟩ = ⟨.w256, 76, 3⟩ :=
  ⟨(promoteNumericType_spec ⟨.w32, 9, 2⟩).1 (by decide),
   (promoteNumericType_spec ⟨.w256, 76, 3⟩).2.1 rfl⟩

/-- The `DECIMAL(P, S)` form can never collide with the `TEXT` sentinel. -/
theorem decimal_format_ne_text (x y : String) :
    ("DECIMAL(" ++ x ++ ", " ++ y ++ ")") ≠ "TEXT" := by
  intro h
  have hlen := congrArg String.length h
  simp only [String.length_append] at hlen
  have h1 : "DECIMAL(".length = 8 := rfl
  have h2 : ", ".length = 2 := rfl
  have h3 : ")".length = 1 := rfl
  have h4 : "TEXT".length = 4 := rfl
  omega

/-- C8: `getSQLCompatibleName` returns `"TEXT"` iff precision exceeds 65 or
scale exceeds 30, and otherwise formats `"DECIMAL(precision, scale)"`. -/
theorem getSQLCompatibleName_spec :
    ∀ d : Descriptor,
      (getSQLCompatibleName d = "TEXT" ↔ d.precision > 65 ∨ d.scale > 30) ∧
      (d.precision ≤ 65 → d.scale ≤ 30 →
        getSQLCompatibleName d =
          "DECIMAL(" ++ toString d.precision ++ ", " ++ toString d.scale ++ ")") := by
  intro d
  have hbranch : d.precision ≤ 65 → d.scale ≤ 30 →
      getSQLCompatibleName d =
        "DECIMAL(" ++ toString d.precision ++ ", " ++ toString d.scale ++ ")" := by
    intro hp hs
    unfold getSQLCompatibleName
    rw [if_neg]
    simp only [Bool.or_eq_true, decide_eq_true_eq]
    omega
  refine ⟨⟨?_, ?_⟩, hbranch⟩
  · intro h
    by_contra hc
    push_neg at hc
    exact decimal_format_ne_text _ _ ((hbranch hc.1 hc.2).symm.trans h)
  · intro h
    unfold getSQLCompatibleName
    rw [if_pos]
    simp only [Bool.or_eq_true, decide_eq_true_eq]
    omega

/-- Witness for C8 at a concrete in-bounds descriptor. -/
theorem getSQLCompatibleName_witness :
    getSQLCompatibleName ⟨.w64, 10, 2⟩ = "DECIMAL(10, 2)" :=
  (getSQLCompatibleName_spec ⟨.w64, 10, 2⟩).2 (by decide) (by decide)

/-- C10: two descriptors of width 64 and scale 2 but precisions 10 and 18
are `equals`-equal while their canonical names differ, because `doGetName`
prints the precision that `equals` ignores. -/
theorem equals_does_not_determine_name :
    equals ⟨.w64, 10, 2⟩ ⟨.w64, 18, 2⟩ = true ∧
    doGetName ⟨.w64, 10, 2⟩ ≠ doGetName ⟨.w64, 18, 2⟩ := by
  constructor
  · decide
  · decide

/-- C5: for any precision at least 1, `createDecimal` fails with the
width-selection rejection when the precision exceeds the 256-bit capacity,
never yields a descriptor when scale exceeds precision, and otherwise
succeeds with exactly the requested precision and scale at the smallest
width whose `maxPrecision` accommodates the precision. -/
theorem createDecimal_width_selection :
    ∀ precision scale : Nat, 1 ≤ precision →
      (precision > maxPrecision .w256 →
        createDecimal precision scale =
          .error ⟨.widthSelectionError,
            "Wrong precision: it must be between 1 and 76"⟩) ∧
      (scale > precision →
        ∀ d : Descriptor, createDecimal precision scale ≠ .ok d) ∧
      (precision ≤ maxPrecision .w256 → scale ≤ precision →
        createDecimal precision scale =
          .ok ⟨smallestDecimalWidth precision, precision, scale⟩ ∧
        precision ≤ maxPrecision (smallestDecimalWidth precision) ∧
        ∀ w : Width, precision ≤ maxPrecision w →
          widthBits (smallestDecimalWidth precision) ≤ widthBits w) := by
  intro p s hp
  refine ⟨?_, ?_, ?_⟩
  · intro h
    unfold createDecimal
    rw [if_pos]
    simp only [Bool.or_eq_true, decide_eq_true_eq]
    simp only [maxPrecision] at h ⊢
    omega
  · intro h d
    unfold createDecimal
    by_cases h1 : (decide (p < 1) || decide (p > maxPrecision .w256)) = true
    · rw [if_pos h1]
      simp
    · rw [if_neg h1, if_pos h]
      simp
  · intro h76 hsp
    simp only [maxPrecision] at h76
    unfold createDecimal
    rw [if_neg, if_neg (by omega)]
    · refine ⟨rfl, ?_, ?_⟩
      · unfold smallestDecimalWidth
        split_ifs with a b c <;> simp_all [maxPrecision]
      · intro w hw
        unfold smallestDecimalWidth
        cases w <;> simp only [maxPrecision, widthBits] at hw ⊢ <;>
          split_ifs <;> simp_all [widthBits]
    · simp only [Bool.or_eq_true, decide_eq_true_eq, maxPrecision]
      omega

/-- Witness for C5 at precision 10 / scale 2 (success at width 64), at
precision 100 (width-selection failure) and at scale 7 over precision 5. -/
theorem createDecimal_width_selection_witness :
    createDecimal 10 2 = .ok ⟨.w64, 10, 2⟩ ∧
    createDecimal 100 0 =
      .error ⟨.widthSelectionError,
        "Wrong precision: it must be between 1 and 76"⟩ ∧
    createDecimal 5 7 ≠ .ok ⟨.w32, 5, 7⟩ :=
  ⟨((createDecimal_width_selection 10 2 (by decide)).2.2 (by decide) (by decide)).1,
   (createDecimal_width_selection 100 0 (by decide)).1 (by decide),
   (createDecimal_width_selection 5 7 (by decide)).2.1 (by decide) ⟨.w32, 5, 7⟩⟩

/-- C3: the generic `Decimal` constructor defaults to precision 10 / scale 0
when no argument list is present, forwards one integer argument as the
precision with scale 0 and two integer arguments as precision and scale, and
rejects a present-but-empty or longer-than-two list with the argument-count
error, a non-`UInt64` first literal or non-integer second literal with the
argument-type error, and `Decimal(5, 7)` because scale exceeds precision. -/
theorem create_generic_spec :
    (create none = .ok ⟨.w64, 10, 0⟩) ∧
    (∀ p : Nat, create (some [.literal (.uint p)]) = createDecimal p 0) ∧
    (∀ p s : Nat,
      create (some [.literal (.uint p), .literal (.uint s)]) = createDecimal p s) ∧
    (create (some []) = .error ⟨.argumentCountError, decimalCountMsg⟩) ∧
    (∀ l : List ASTNode, 2 < l.length →
      create (some l) = .error ⟨.argumentCountError, decimalCountMsg⟩) ∧
    (∀ f : Field, isUInt64Field f = false →
      create (some [.literal f]) = .error ⟨.argumentTypeError, precisionInvalidMsg⟩) ∧
    (∀ (p : Nat) (f : Field), isInt64OrUInt64FieldType f = false →
      create (some [.literal (.uint p), .literal f]) =
        .error ⟨.argumentTypeError, scaleInvalidMsg⟩) ∧
    (create (some [.literal (.uint 5), .literal (.uint 7)]) =
      .error ⟨.argumentTypeError, "Scale larger than precision is not supported"⟩) := by
  refine ⟨by decide, ?_, ?_, by decide, ?_, ?_, ?_, by decide⟩
  · intro p
    rfl
  · intro p s
    rfl
  · intro l hl
    have hcond : (l.isEmpty || decide (l.length > 2)) = true := by
      simp only [Bool.or_eq_true, decide_eq_true_eq]
      exact Or.inr hl
    simp only [create, hcond, if_true]
  · intro f hf
    cases f <;> first | rfl | simp [isUInt64Field] at hf
  · intro p f hf
    cases f <;> first | rfl | simp [isInt64OrUInt64FieldType] at hf

/-- Witness for C3 at a three-element list, a string literal in the
precision slot and a float literal in the scale slot. -/
theorem create_generic_witness :
    create (some [.other, .other, .other]) =
      .error ⟨.argumentCountError, decimalCountMsg⟩ ∧
    create (some [.literal (.str "a")]) =
      .error ⟨.argumentTypeError, precisionInvalidMsg⟩ ∧
    create (some [.literal (.uint 5), .literal .float]) =
      .error ⟨.argumentTypeError, scaleInvalidMsg⟩ :=
  ⟨create_generic_spec.2.2.2.2.1 [.other, .other, .other] (by decide),
   create_generic_spec.2.2.2.2.2.1 (.str "a") (by decide),
   create_generic_spec.2.2.2.2.2.2.1 5 .float (by decide)⟩

/-- C4: every exact-width constructor rejects a missing argument list or one
whose length differs from 1 with the argument-count error, rejects a single
non-integer argument (wrong literal kind, or not a literal at all) with the
argument-type error, and with one integer literal fixes the precision to the
width's `maxPrecision` and forwards the literal as the scale; whenever that
scale is within the width's `maxPrecision` the result is the descriptor of
exactly that width, precision `maxPrecision w` and the given scale. -/
theorem createExact_spec :
    ∀ w : Width,
      (createExact w none = .error ⟨.argumentCountError, exactCountMsg⟩) ∧
      (∀ l : List ASTNode, l.length ≠ 1 →
        createExact w (some l) = .error ⟨.argumentCountError, exactCountMsg⟩) ∧
      (∀ f : Field, isInt64OrUInt64FieldType f = false →
        createExact w (some [.literal f]) =
          .error ⟨.argumentTypeError, exactTypeMsg⟩) ∧
      (createExact w (some [.other]) = .error ⟨.argumentTypeError, exactTypeMsg⟩) ∧
      (∀ f : Field, isInt64OrUInt64FieldType f = true →
        createExact w (some [.literal f]) =
          createDecimal (maxPrecision w) (getUInt f)) ∧
      (∀ s : Nat, s ≤ maxPrecision w →
        createExact w (some [.literal (.uint s)]) = .ok ⟨w, maxPrecision w, s⟩) := by
  intro w
  refine ⟨rfl, ?_, ?_, rfl, ?_, ?_⟩
  · intro l hl
    simp only [createExact, if_pos hl]
  · intro f hf
    cases f <;> first | rfl | simp [isInt64OrUInt64FieldType] at hf
  · intro f hf
    cases f <;> first | rfl | simp [isInt64OrUInt64FieldType] at hf
  · intro s hs
    have hstep : createExact w (some [.literal (.uint s)]) =
        createDecimal (maxPrecision w) s := by
      cases w <;> rfl
    rw [hstep]
    cases w <;>
      · simp only [maxPrecision] at hs ⊢
        unfold createDecimal
        rw [if_neg (by decide), if_neg (by omega)]
        rfl

/-- Witness for C4: `Decimal256` with two arguments fails with the
argument-count error, a string argument fails with the argument-type error,
and `Decimal64(3)` builds the width-64 descriptor of precision 18, scale 3. -/
theorem createExact_witness :
    createExact .w256 (some [.literal (.uint 1), .literal (.uint 0)]) =
      .error ⟨.argumentCountError, exactCountMsg⟩ ∧
    createExact .w32 (some [.literal (.str "x")]) =
      .error ⟨.argumentTypeError, exactTypeMsg⟩ ∧
    createExact .w64 (some [.literal (.uint 3)]) = .ok ⟨.w64, 18, 3⟩ :=
  ⟨(createExact_spec .w256).2.1 [.literal (.uint 1), .literal (.uint 0)] (by decide),
   (createExact_spec .w32).2.2.1 (.str "x") (by decide),
   (createExact_spec .w64).2.2.2.2.2 3 (by decide)⟩

/-- Scanning `"1.50"` against any precision of at least 3 and any scale of
at least 2 reads the raw integer 150 with two fractional digits consumed,
leaving `scale - 2` unread scale-up steps. -/
theorem readDecimalText_one_point_fifty (p s : Nat) (h3 : 3 ≤ p) (h2 : 2 ≤ s) :
    readDecimalText "1.50" p s = .ok (150, s - 2) := by
  have hscan : scanChars "1.50".toList = some ⟨3, 2, 150, false⟩ := by decide
  unfold readDecimalText
  rw [hscan]
  dsimp only
  rw [if_neg (by omega), if_neg (by omega)]
  rfl

/-- C1: `parseFromString` forwards the scanner's raw integer multiplied by
`10 ^ unread_scale` whenever that product fits the width; in particular any
descriptor of scale 4 (and hence precision at least 4, by the descriptor
invariant) parses `"1.50"` to the raw value 15000. -/
theorem parseFromString_scales_up :
    (∀ (d : Descriptor) (str : String) (x : Int) (u : Nat),
      readDecimalText str d.precision d.scale = .ok (x, u) →
      fitsWidth d.width (x * (10 : Int) ^ u) = true →
      parseFromString d str = .ok (x * (10 : Int) ^ u)) ∧
    (∀ d : Descriptor, d.scale = 4 → d.scale ≤ d.precision →
      parseFromString d "1.50" = .ok 15000) := by
  constructor
  · intro d str x u hread hfit
    unfold parseFromString
    rw [hread]
    simp only [hfit, if_true]
  · intro d h4 hle
    have hr := readDecimalText_one_point_fifty d.precision d.scale
      (by omega) (by omega)
    unfold parseFromString
    rw [hr, h4]
    norm_num
    cases d.width <;> decide

/-- Witness for C1 at the width-32 descriptor of precision 9, scale 4. -/
theorem parseFromString_scales_up_witness :
    parseFromString ⟨.w32, 9, 4⟩ "1.50" = .ok 15000 :=
  parseFromString_scales_up.2 ⟨.w32, 9, 4⟩ rfl (by decide)

/-- C2: whenever the scanner succeeds, `parseFromString` fails with the
overflow error carrying the message "Decimal math overflow" exactly when
the scaled-up product leaves the representable range of the descriptor's
width, and otherwise returns that product unchanged — never a clamped or
truncated value. -/
theorem parseFromString_overflow_spec :
    ∀ (d : Descriptor) (str : String) (x : Int) (u : Nat),
      readDecimalText str d.precision d.scale = .ok (x, u) →
      (fitsWidth d.width (x * (10 : Int) ^ u) = false →
        parseFromString d str =
          .error ⟨.overflowError, "Decimal math overflow"⟩) ∧
      (fitsWidth d.width (x * (10 : Int) ^ u) = true →
        parseFromString d str = .ok (x * (10 : Int) ^ u)) := by
  intro d str x u hread
  constructor
  · intro hfit
    unfold parseFromString
    rw [hread]
    simp [hfit]
  · intro hfit
    unfold parseFromString
    rw [hread]
    simp only [hfit, if_true]

/-- Witness for C2: `"999999.99"` scans to 99999999 with one unread step at
scale 4, and the scaled-up value 9999999900 overflows width 32. -/
theorem parseFromString_overflow_witness :
    parseFromString ⟨.w32, 9, 4⟩ "999999.99" =
      .error ⟨.overflowError, "Decimal math overflow"⟩ :=
  (parseFromString_overflow_spec ⟨.w32, 9, 4⟩ "999999.99" 99999999 2
    (by decide)).1 (by decide)

/-- C9: after `registerDataTypeDecimal`, each of the four exact-width names
resolves (in any letter case) to its width-specific constructor, `Decimal`
and the aliases `DEC`, `NUMERIC`, `FIXED` resolve to the generic
constructor, `"numeric"` resolves identically to `"Decimal"`, and each
registration tag stands for the corresponding constructor function. -/
theorem registerDataTypeDecimal_bindings :
    (lookupCtor decimalFactory "Decimal32" = some .exact32) ∧
    (lookupCtor decimalFactory "decimal32" = some .exact32) ∧
    (lookupCtor decimalFactory "DECIMAL32" = some .exact32) ∧
    (lookupCtor decimalFactory "Decimal64" = some .exact64) ∧
    (lookupCtor decimalFactory "Decimal128" = some .exact128) ∧
    (lookupCtor decimalFactory "Decimal256" = some .exact256) ∧
    (lookupCtor decimalFactory "Decimal" = some .generic) ∧
    (lookupCtor decimalFactory "DEC" = some .generic) ∧
    (lookupCtor decimalFactory "NUMERIC" = some .generic) ∧
    (lookupCtor decimalFactory "FIXED" = some .generic) ∧
    (lookupCtor decimalFactory "numeric" = lookupCtor decimalFactory "Decimal") ∧
    (applyCtor .exact32 = createExact .w32) ∧
    (applyCtor .exact64 = createExact .w64) ∧
    (applyCtor .exact128 = createExact .w128) ∧
    (applyCtor .exact256 = createExact .w256) ∧
    (applyCtor .generic = create) :=
  ⟨by decide, by decide, by decide, by decide, by decide, by decide, by decide,
   by decide, by decide, by decide, by decide, rfl, rfl, rfl, rfl, rfl⟩

end DataTypesDecimal
